import Mathlib

/-
  Shallow embedding of the chunked-DOM action/extraction control loop of the
  stagehand-py repository (src/stagehand.py and src/lib/inference.py).

  External collaborators (the Selenium driver, the injected window.processDom
  script, the LLM backends) are modelled as environment records supplying
  their observable results.  The control flow, branch conditions, retry
  counters, result dictionaries and ledger writes are translated branch by
  branch from the Python source.  Browser commands are recorded in an
  operation trace so that theorems can speak about the order of browser
  interactions, and inference calls are counted.
-/

set_option autoImplicit false

namespace Stagehand

/-- The Python value of the public `use_vision` parameter: `False`, `True`,
or the string literal used as default value, written `pfallback` here. -/
inductive PyVision where
  | pfalse
  | ptrue
  | pfallback
deriving Repr, DecidableEq

/-- Python truthiness of the `use_vision` value (the fallback marker is a
non-empty string, hence truthy). -/
def PyVision.truthy : PyVision → Bool
  | .pfalse => false
  | _ => true

/-- Result of `window.processDom(chunks_seen)` as consumed by `_act` and
`_extract`: the serialized chunk text, the selector map keyed by element id
(Python keys are `str(element_id)`), the current chunk identifier, and the
total number of chunks (the source only ever uses `len(chunks)`). -/
structure DomResult where
  outputString : String
  selectorMap : Nat → Option String
  chunk : Nat
  chunks : Nat

/-- A non-null response of the `act` inference call (`response` in `_act`):
a JSON object with keys element, method, args, step, why, completed. -/
structure Response where
  element : Nat
  method : String
  args : List String
  step : String
  why : String
  completed : Bool
deriving Repr, DecidableEq

/-- The call state threaded through the recursive `_act` calls
(`steps`, `chunks_seen`, `use_vision`, `verifier_use_vision`, `retries`). -/
structure ActState where
  steps : String
  chunksSeen : List Nat
  useVision : PyVision
  verifierUseVision : Bool
  retries : Nat
deriving Repr, DecidableEq

/-- Browser and script operations issued by `_act`, recorded in order.  The
argument of `closeWindow` is the handle of the window that is current when
`driver.close()` runs. -/
inductive BrowserOp where
  | injectScripts
  | waitSettled
  | domProcess (seen : List Nat)
  | scrollElem (element : Nat)
  | clickElem (element : Nat)
  | switchWindow (h : Nat)
  | closeWindow (h : Nat)
  | navigate (url : String)
  | waitReady (timedOut : Bool)
  | scrollTop
  | clearElem (element : Nat)
  | sendKeys (text : String)
  | processAllDom
  | screenshotFull
deriving Repr, DecidableEq

/-- Instrumentation collected while running the `_act` loop: inference-call
counters, how often the vision-fallback branch was taken, method-dispatch
and error-log counters, `record_action` writes, and the operation trace. -/
structure Stats where
  decideCalls : Nat := 0
  visionDecideCalls : Nat := 0
  fallbackHits : Nat := 0
  methodExecs : Nat := 0
  errorLogs : Nat := 0
  records : List (String × String) := []
  ops : List BrowserOp := []
deriving Repr, DecidableEq

def Stats.addOp (s : Stats) (o : BrowserOp) : Stats :=
  { s with ops := s.ops ++ [o] }

def Stats.addRecord (s : Stats) (a r : String) : Stats :=
  { s with records := s.records ++ [(a, r)] }

def Stats.logErr (s : Stats) : Stats :=
  { s with errorLogs := s.errorLogs + 1 }

def Stats.incExec (s : Stats) : Stats :=
  { s with methodExecs := s.methodExecs + 1 }

/-- Python result dictionary returned by `_act` and `act`. -/
structure PyResult where
  success : Bool
  message : String
  action : String
deriving Repr, DecidableEq

/-- Outcome of an `_act` run: a normal return, an uncaught exception, or
fuel exhaustion of the embedding (the Python recursion is unbounded). -/
inductive ActRet where
  | outOfFuel
  | raised (msg : String)
  | ret (r : PyResult)
deriving Repr, DecidableEq

def ActRet.success? : ActRet → Bool
  | .ret r => r.success
  | _ => false

/-- One step of `_act` either terminates or tail-calls `_act` with an
updated state: every `return self._act(...)` in the source is a tail call. -/
inductive StepOut where
  | done (r : ActRet)
  | recur (st : ActState)
deriving Repr, DecidableEq

/-- Environment describing the externally observable behaviour of the
collaborators during one `act` invocation: whether the chosen model is in
MODELS_WITH_VISION, the DOM snapshot script, the `act` inference call,
whether the various Selenium calls raise, the window handles and URL seen
after a click, and the completion verifier. -/
structure ActEnv where
  modelHasVision : Bool
  processDom : List Nat → DomResult
  decide : ActState → Option Response
  findElementThrows : ActState → Bool
  scrollThrows : ActState → Bool
  clickThrows : ActState → Bool
  windowHandles : ActState → List Nat
  newTabUrl : ActState → String
  readyTimesOut : ActState → Bool
  urlChangedAfterClick : ActState → Bool
  fillThrows : ActState → Bool
  verifyScreenshotThrows : ActState → Bool
  verify : ActState → String → Bool
  errMsg : ActState → String

/-- Lines 307-314 of stagehand.py: if the model does not support vision and
either `use_vision is not False` or the verifier wants vision, both vision
flags are forced off (with a logged warning, never an error). -/
def forceVision (env : ActEnv) (st : ActState) : ActState :=
  if env.modelHasVision = false ∧ (st.useVision ≠ .pfalse ∨ st.verifierUseVision = true) then
    { st with useVision := .pfalse, verifierUseVision := false }
  else st

/-- Lines 413-418: recover the element display text from the serialized
chunk text. -/
def elementTextOf (outputString : String) (elementId : Nat) : String :=
  let elementLines := outputString.splitOn "\n"
  match elementLines.find? (fun l => l.startsWith (toString elementId ++ ":")) with
  | some l => (l.splitOn ":").getD 1 ""
  | none => "Element not found"

/-- Lines 635-657: the catch-all handler around action execution.  Retry the
whole step (retries + 1, chunks_seen and steps preserved) while fewer than
2 retries happened, otherwise record an empty result in the actions ledger
and return a failure dictionary. -/
def outerCatch (action : String) (st : ActState) (msg : String) (s : Stats) :
    StepOut × Stats :=
  let s := s.logErr
  if st.retries < 2 then
    (.recur { st with retries := st.retries + 1 }, s)
  else
    (.done (.ret ⟨false, "Error performing action: " ++ msg, action⟩), s.addRecord action "")

/-- Lines 551-558: the step narrative appended after a dispatch. -/
def stepNote (steps : String) (rsp : Response) (elementText : String) : String :=
  steps ++ (if steps.endsWith "\n" then "" else "\n") ++
    "## Step: " ++ rsp.step ++ "\n" ++
    "  Element: " ++ elementText ++ "\n" ++
    "  Action: " ++ rsp.method ++ "\n" ++
    "  Reasoning: " ++ rsp.why ++ "\n"

/-- Lines 551-633: append the step record; if the decision flagged
completion, verify it (via a full-page screenshot when the verifier uses
vision, otherwise via the full DOM text) and either terminate successfully,
recording the action, or continue the loop with retries reset to 0. -/
def afterExec (env : ActEnv) (action : String) (st : ActState) (rsp : Response)
    (elementText : String) (s : Stats) : StepOut × Stats :=
  let newSteps := stepNote st.steps rsp elementText
  if rsp.completed then
    if st.verifierUseVision && env.verifyScreenshotThrows st then
      outerCatch action st (env.errMsg st) s
    else
      let s := if st.verifierUseVision then s.addOp .screenshotFull else s.addOp .processAllDom
      if env.verify st newSteps then
        (.done (.ret ⟨true, "Action completed successfully: " ++ newSteps, action⟩),
          s.addRecord action rsp.step)
      else
        (.recur { st with steps := newSteps, retries := 0 }, s)
  else
    (.recur { st with steps := newSteps, retries := 0 }, s)

/-- One iteration of `_act` (stagehand.py lines 292-657), driven by `env`. -/
def actStep (env : ActEnv) (action : String) (st0 : ActState) (s0 : Stats) :
    StepOut × Stats :=
  let s := s0.addOp .injectScripts
  let st := forceVision env st0
  let s := s.addOp .waitSettled
  let dom := env.processDom st.chunksSeen
  let s := s.addOp (.domProcess st.chunksSeen)
  let visionCall := st.useVision.truthy && env.modelHasVision
  let s := { s with decideCalls := s.decideCalls + 1,
                    visionDecideCalls := s.visionDecideCalls + visionCall.toNat }
  match env.decide st with
  | none =>
    if st.chunksSeen.length + 1 < dom.chunks then
      -- lines 367-384: skip to the next chunk, retries back to the default 0
      (.recur { st with
          steps := st.steps ++ (if st.steps.endsWith "\n" then "" else "\n") ++
            "## Step: Scrolled to another section\n",
          chunksSeen := st.chunksSeen ++ [dom.chunk],
          retries := 0 }, s)
    else if st.useVision = .pfallback then
      -- lines 385-399: scroll to top and escalate to full vision mode
      let s := { s with fallbackHits := s.fallbackHits + 1 }
      let s := s.addOp .scrollTop
      (.recur { st with useVision := .ptrue, retries := 0 }, s)
    else
      (.done (.ret ⟨false, "Action was not able to be completed.", action⟩), s)
  | some rsp =>
    match dom.selectorMap rsp.element with
    | none =>
      -- line 409: `selector_map[str(element_id)]` sits outside the try
      -- block, so a missing key raises out of `_act`
      (.done (.raised "KeyError"), s)
    | some _xpath =>
      let elementText := elementTextOf dom.outputString rsp.element
      if env.findElementThrows st then
        outerCatch action st (env.errMsg st) s
      else if rsp.method = "scrollIntoView" then
        -- lines 432-448: a failing scroll script is logged, execution continues
        let s := (s.incExec).addOp (.scrollElem rsp.element)
        let s := if env.scrollThrows st then s.logErr else s
        afterExec env action st rsp elementText s
      else if rsp.method = "click" then
        let s := (s.incExec).addOp (.clickElem rsp.element)
        if env.clickThrows st then
          outerCatch action st (env.errMsg st) s
        else
          let handles := env.windowHandles st
          let s :=
            if 1 < handles.length then
              -- lines 459-474: switch to the new tab, close it, switch back
              -- to the first handle and navigate it to the new URL
              let newHandle := handles.getLastD 0
              let url := env.newTabUrl st
              ((((((s.addOp (.switchWindow newHandle)).addOp
                  (.closeWindow newHandle)).addOp
                  (.switchWindow (handles.headD 0))).addOp
                  (.navigate url)).addOp .waitSettled).addOp .injectScripts)
            else s
          -- lines 476-486: bounded readiness wait, timeout only logged
          let s := s.addOp (.waitReady (env.readyTimesOut st))
          let s := if env.urlChangedAfterClick st then s.addOp .injectScripts else s
          afterExec env action st rsp elementText s
      else if rsp.method = "fill" ∨ rsp.method = "type" then
        let s := s.incExec
        if env.fillThrows st ∨ rsp.args = [] then
          -- lines 511-526: inner handler; retry while retries < 2, otherwise
          -- fall through and continue as if the fill had succeeded
          let s := s.logErr
          if st.retries < 2 then
            (.recur { st with retries := st.retries + 1 }, s)
          else
            afterExec env action st rsp elementText s
        else
          let s := ((s.addOp (.clearElem rsp.element)).addOp
            (.clickElem rsp.element)).addOp (.sendKeys (rsp.args.headD ""))
          afterExec env action st rsp elementText s
      else
        -- lines 528-549: unknown method name
        if st.retries < 2 then
          (.recur { st with retries := st.retries + 1 }, s)
        else
          (.done (.ret ⟨false,
            "Internal error: Chosen method " ++ rsp.method ++ " is invalid", action⟩), s)

/-- The `_act` recursion, fuel-indexed (the Python recursion is unbounded,
every recursive call is a tail call). -/
def actLoop (env : ActEnv) (action : String) : Nat → ActState → Stats → ActRet × Stats
  | 0, _, s => (.outOfFuel, s)
  | fuel + 1, st, s =>
    match actStep env action st s with
    | (.done r, s) => (r, s)
    | (.recur st', s) => actLoop env action fuel st' s

/-- Line 282: the public `act` replaces the fallback marker by `False`
before the first `_act` call. -/
def toBoolVision : PyVision → PyVision
  | .pfallback => .pfalse
  | v => v

/-- The public `act` entry point (stagehand.py lines 277-290):
`chunks_seen=[]`, `use_vision` coerced by `toBoolVision`, and
`verifier_use_vision = use_vision is not False`. -/
def act (env : ActEnv) (action : String) (useVision : PyVision) (fuel : Nat) :
    ActRet × Stats :=
  let uv := toBoolVision useVision
  actLoop env action fuel
    { steps := "", chunksSeen := [], useVision := uv,
      verifierUseVision := uv.truthy, retries := 0 }
    {}

/-- A fragment of the Python value universe, enough for the extraction
dictionaries handled by `_extract`. -/
inductive PyVal where
  | vnone
  | vbool (b : Bool)
  | vstr (s : String)
  | vlist (xs : List PyVal)
  | vdict (entries : List (String × PyVal))

/-- Python truthiness for the modelled values. -/
def pyTruthy : PyVal → Bool
  | .vnone => false
  | .vbool b => b
  | .vstr s => !(s == "")
  | .vlist xs => !xs.isEmpty
  | .vdict m => !m.isEmpty

/-- Python `d.get(k)` on an association list (first match; Python keeps
dictionary keys unique, carried as a hypothesis where it matters). -/
def dictGet {α : Type} (m : List (String × α)) (k : String) : Option α :=
  (m.find? (fun p => p.1 == k)).map (fun p => p.2)

/-- Python `d[k] = v`: overwrite an existing key, append otherwise. -/
def dictSet {α : Type} (m : List (String × α)) (k : String) (v : α) :
    List (String × α) :=
  if m.any (fun p => p.1 == k) then
    m.map (fun p => if p.1 == k then (k, v) else p)
  else m ++ [(k, v)]

/-- Python `d.pop(k, default)`: the removed value (or default) together
with the remaining dictionary. -/
def dictPop {α : Type} (m : List (String × α)) (k : String) (dflt : α) :
    α × List (String × α) :=
  match dictGet m k with
  | some v => (v, m.filter (fun p => !(p.1 == k)))
  | none => (dflt, m)

/-- Python `metadata.get(key, default)`; the source only ever reaches this
with a dictionary value. -/
def pyGet (v : PyVal) (k : String) (dflt : PyVal) : PyVal :=
  match v with
  | .vdict m => (dictGet m k).getD dflt
  | _ => dflt

/-- Environment for `_extract`: the DOM snapshot script and the `extract`
inference pipeline, whose result is a JSON dictionary.  The pipeline result
may depend on the chunks seen so far, the progress note, and the running
accumulator (the other arguments of the Python call are fixed per run). -/
structure ExtractEnv where
  processDom : List Nat → DomResult
  extractCall : List Nat → PyVal → PyVal → List (String × PyVal)

/-- Line 676: `content = content or` the empty dictionary. -/
def normContent (c : PyVal) : PyVal :=
  if pyTruthy c then c else .vdict []

/-- The gateway response of one `_extract` step. -/
def stepResp (env : ExtractEnv) (seen : List Nat) (progress content : PyVal) :
    List (String × PyVal) :=
  env.extractCall seen progress (normContent content)

/-- The completed flag of one `_extract` step:
`metadata.get("completed", False)` after popping metadata. -/
def stepCompleted (env : ExtractEnv) (seen : List Nat) (progress content : PyVal) :
    Bool :=
  pyTruthy (pyGet (dictPop (stepResp env seen progress content) "metadata" (.vdict [])).1
    "completed" (.vbool false))

/-- Outcome of an `_extract` run: the returned accumulator (`none` when the
fuel of the embedding ran out), the number of `extract` gateway calls made,
and the final `chunks_seen` list. -/
structure ExtractOut where
  result : Option PyVal
  calls : Nat
  seen : List Nat

/-- The `_extract` recursion (stagehand.py lines 659-761), fuel-indexed:
one gateway call per iteration, pop the metadata, unwrap a list-of-items
payload, append the current chunk to `chunks_seen`, and stop when the
completed flag is truthy or every chunk has been seen. -/
def extractLoop (env : ExtractEnv) : Nat → PyVal → PyVal → List Nat → ExtractOut
  | 0, _, _, seen => ⟨none, 0, seen⟩
  | fuel + 1, progress, content, seen =>
    let resp := stepResp env seen progress content
    let metadata := (dictPop resp "metadata" (.vdict [])).1
    let rest := (dictPop resp "metadata" (.vdict [])).2
    let newProgress := pyGet metadata "progress" (.vstr "")
    let snap := env.processDom seen
    let output : PyVal :=
      match dictGet rest "items" with
      | some (.vlist xs) => .vlist xs
      | _ => .vdict rest
    let seen' := seen ++ [snap.chunk]
    if stepCompleted env seen progress content || (seen'.length == snap.chunks) then
      ⟨some output, 1, seen'⟩
    else
      let r := extractLoop env fuel newProgress output seen'
      ⟨r.result, r.calls + 1, r.seen⟩

/-- The public `extract` (stagehand.py lines 763-776): empty progress note,
empty accumulator (`None`, coerced in the body), no chunks seen. -/
def extract (env : ExtractEnv) (fuel : Nat) : ExtractOut :=
  extractLoop env fuel (.vstr "") .vnone []

/-- Stagehand.record_action (stagehand.py lines 864-871): the fingerprint
is the deterministic hash of the action text, and the ledger entry for that
fingerprint is stored or overwritten with the pair (result, action).  `sha`
is the hashlib sha256 hexdigest. -/
def record_action (sha : String → String) (actions : List (String × String × String))
    (action result : String) : List (String × String × String) × String :=
  let actionId := sha action
  (dictSet actions actionId (result, action), actionId)

/-- Terminal outcome of `Stagehand.observe`. -/
inductive ObserveRet where
  | raised (msg : String)
  | retNone
  | retId (id : String)
deriving Repr, DecidableEq

/-- Environment of one `observe` call: the raw reply content of the model
(the element id string; an empty reply is turned into an exception by
lib/inference.py observe), the selector map of the snapshot, and whether
`driver.find_element` raises. -/
structure ObserveEnv where
  observeContent : String
  selectorMap : String → Option String
  findElementFails : Bool

/-- Result of an `observe` run: outcome, the observations ledger afterwards,
and whether a ledger entry was written. -/
structure ObserveOut where
  ret : ObserveRet
  ledger : List (String × String × String)
  wrote : Bool

/-- Stagehand.observe (stagehand.py lines 778-835) over the observations
ledger (fingerprint mapped to the pair (result, observation)).  An empty
model reply raises inside the inference gateway; the sentinel "NONE"
returns the no-match value `None`; otherwise the selector map is consulted
(a missing key raises), the element is located in the live page (a stale id
raises), and only then is a ledger entry recorded. -/
def observe (env : ObserveEnv) (sha : String → String)
    (observations : List (String × String × String)) (observation : String) :
    ObserveOut :=
  if env.observeContent = "" then
    ⟨.raised "no response when finding a selector", observations, false⟩
  else if env.observeContent = "NONE" then
    ⟨.retNone, observations, false⟩
  else
    match env.selectorMap env.observeContent with
    | none => ⟨.raised "KeyError", observations, false⟩
    | some selector =>
      if env.findElementFails then
        ⟨.raised "NoSuchElementException", observations, false⟩
      else
        -- the `if not element` guard after find_element is never taken:
        -- find_element either raises or returns a truthy element handle
        let locatorString := "xpath=" ++ selector
        let observationId := sha observation
        ⟨.retId observationId,
          dictSet observations observationId (locatorString, observation), true⟩

end Stagehand

namespace Inference

/-- One tool call of a chat-completion response: function name and the raw
JSON-encoded arguments (the empty string models an absent or empty
arguments payload, both falsy in Python). -/
structure ToolCall where
  name : String
  arguments : String
deriving Repr, DecidableEq

/-- Outcome of the `act` inference call: the returned value (the raw
arguments string whose parsed form the caller receives; `none` is Python
`None`), the number of chat-completion calls made, and whether the
"No tool calls found in response" error was logged. -/
structure ActOut where
  result : Option String
  calls : Nat
  loggedNoToolCalls : Bool
deriving Repr, DecidableEq

/-- The `act` inference call (lib/inference.py lines 71-122).  `responses i`
is the tool-call list of the model response to the call made with
`retries = i`.  A first tool call named skipSection yields `None`; a first
tool call with an empty arguments payload falls off the end of the function,
also yielding `None` without any retry; with no tool calls at all the model
call is retried up to 2 additional times, after which the condition is
logged as an error and `None` is returned rather than raising. -/
def act (responses : Nat → List ToolCall) (retries : Nat) : ActOut :=
  match responses retries with
  | tc :: _ =>
    if tc.name = "skipSection" then ⟨none, 1, false⟩
    else if tc.arguments ≠ "" then ⟨some tc.arguments, 1, false⟩
    else ⟨none, 1, false⟩
  | [] =>
    if h : 2 ≤ retries then ⟨none, 1, true⟩
    else
      let r := act responses (retries + 1)
      ⟨r.result, r.calls + 1, r.loggedNoToolCalls⟩
termination_by 3 - retries
decreasing_by
  simp_wf
  omega

end Inference

namespace Scenarios

open Stagehand

/-- A benign default environment for `act` scenarios: a vision-capable
model, a single chunk whose serialization lists element 3, no failures,
and a verifier that accepts. -/
def baseEnv : ActEnv where
  modelHasVision := true
  processDom := fun seen =>
    { outputString := "3:About", selectorMap := fun i => if i = 3 then some "(//a)[3]" else none,
      chunk := seen.length, chunks := 1 }
  decide := fun _ => none
  findElementThrows := fun _ => false
  scrollThrows := fun _ => false
  clickThrows := fun _ => false
  windowHandles := fun _ => [7]
  newTabUrl := fun _ => ""
  readyTimesOut := fun _ => false
  urlChangedAfterClick := fun _ => false
  fillThrows := fun _ => false
  verifyScreenshotThrows := fun _ => false
  verify := fun _ _ => true
  errMsg := fun _ => "boom"

/-- A page of two chunks on which the decide-action inference call returns
null everywhere (the C1 boundary scenario). -/
def envAllNull : ActEnv :=
  { baseEnv with
    processDom := fun seen =>
      { outputString := "", selectorMap := fun _ => none,
        chunk := seen.length, chunks := 2 } }

/-- Every decide call picks a scrollIntoView action flagged completed, and
the scroll script raises. -/
def envScrollThrows : ActEnv :=
  { baseEnv with
    decide := fun _ => some ⟨3, "scrollIntoView", [], "did scroll", "w", true⟩,
    scrollThrows := fun _ => true }

/-- Every decide call picks a click action, and element resolution
(`driver.find_element`) raises each time. -/
def envFindThrows : ActEnv :=
  { baseEnv with
    decide := fun _ => some ⟨3, "click", [], "clicked", "w", false⟩,
    findElementThrows := fun _ => true }

/-- Every decide call picks a fill action flagged completed, and the fill
always raises. -/
def envFillThrows : ActEnv :=
  { baseEnv with
    decide := fun _ => some ⟨3, "fill", ["hi"], "typed", "w", true⟩,
    fillThrows := fun _ => true }

/-- Every decide call returns the (invalid) method name `m`. -/
def envMethod (m : String) : ActEnv :=
  { baseEnv with
    decide := fun _ => some ⟨3, m, [], "s", "w", false⟩ }

/-- A click that opens a new tab (handles [7, 9], the new tab last) whose
URL is `url`; the readiness wait times out and the URL comparison after the
wait reports a change. -/
def envNewTab (url : String) : ActEnv :=
  { baseEnv with
    decide := fun _ => some ⟨3, "click", [], "clicked", "w", true⟩,
    windowHandles := fun _ => [7, 9],
    newTabUrl := fun _ => url,
    readyTimesOut := fun _ => true,
    urlChangedAfterClick := fun _ => true }

/-- An extraction page of two chunks whose gateway never reports
completion. -/
def envExtractTwo : ExtractEnv where
  processDom := fun seen =>
    { outputString := "", selectorMap := fun _ => none,
      chunk := seen.length, chunks := 2 }
  extractCall := fun _ _ _ =>
    [("title", .vstr "x"),
     ("metadata", .vdict [("progress", .vstr "p"), ("completed", .vbool false)])]

/-- An observe call whose model reply is the NONE sentinel. -/
def envObserveNone : ObserveEnv where
  observeContent := "NONE"
  selectorMap := fun _ => none
  findElementFails := false

/-- An observe call that finds element 5 and resolves it. -/
def envObserveHit : ObserveEnv where
  observeContent := "5"
  selectorMap := fun s => if s = "5" then some "(//a)[5]" else none
  findElementFails := false

/-- Oracle whose first response is a skipSection tool call. -/
def skipOracle : Nat → List Inference.ToolCall :=
  fun _ => [{ name := "skipSection", arguments := "" }]

/-- Oracle that never returns a tool call. -/
def emptyOracle : Nat → List Inference.ToolCall :=
  fun _ => []

/-- Oracle whose first response is a click tool call with an empty
arguments payload. -/
def emptyArgsOracle : Nat → List Inference.ToolCall :=
  fun _ => [{ name := "click", arguments := "" }]

end Scenarios

namespace Stagehand

theorem actLoop_zero (env : ActEnv) (action : String) (st : ActState) (s : Stats) :
    actLoop env action 0 st s = (.outOfFuel, s) := rfl

theorem actLoop_succ (env : ActEnv) (action : String) (fuel : Nat) (st : ActState)
    (s : Stats) :
    actLoop env action (fuel + 1) st s =
      match actStep env action st s with
      | (.done r, s') => (r, s')
      | (.recur st', s') => actLoop env action fuel st' s' := rfl

theorem extractLoop_zero (env : ExtractEnv) (progress content : PyVal) (seen : List Nat) :
    extractLoop env 0 progress content seen = ⟨none, 0, seen⟩ := rfl

theorem extractLoop_succ (env : ExtractEnv) (fuel : Nat) (progress content : PyVal)
    (seen : List Nat) :
    extractLoop env (fuel + 1) progress content seen =
      (let resp := stepResp env seen progress content
       let metadata := (dictPop resp "metadata" (.vdict [])).1
       let rest := (dictPop resp "metadata" (.vdict [])).2
       let newProgress := pyGet metadata "progress" (.vstr "")
       let snap := env.processDom seen
       let output : PyVal :=
         match dictGet rest "items" with
         | some (.vlist xs) => .vlist xs
         | _ => .vdict rest
       let seen' := seen ++ [snap.chunk]
       if stepCompleted env seen progress content || (seen'.length == snap.chunks) then
         ⟨some output, 1, seen'⟩
       else
         let r := extractLoop env fuel newProgress output seen'
         ⟨r.result, r.calls + 1, r.seen⟩) := rfl

end Stagehand

open Stagehand Scenarios

/-- C1: on a 2-chunk page where the decide-action call returns null on every
chunk, the public `act` invoked with the fallback vision mode returns the
failure dictionary directly after the non-vision pass: 2 decide calls, none
of them in vision mode, the vision-fallback branch never taken, and no
scroll-position reset.  This evaluates the code at the failing input of the
C1 claim: the documented escalation to full vision mode never happens
because `act` coerces the fallback marker to `False` (stagehand.py:282),
leaving the escalation branch of `_act` (stagehand.py:385-399) dead. -/
theorem act_fallback_no_vision_escalation :
    (act envAllNull "go" .pfallback 5).1 =
      .ret { success := false, message := "Action was not able to be completed.",
             action := "go" } ∧
    (act envAllNull "go" .pfallback 5).2.decideCalls = 2 ∧
    (act envAllNull "go" .pfallback 5).2.visionDecideCalls = 0 ∧
    (act envAllNull "go" .pfallback 5).2.fallbackHits = 0 ∧
    BrowserOp.scrollTop ∉ (act envAllNull "go" .pfallback 5).2.ops := by
  refine ⟨rfl, rfl, rfl, rfl, ?_⟩
  decide

/-- C3 counterexample: an exception raised while executing the decided
scrollIntoView action (the scroll script throws: one error is logged) does
not make the controller retry the decide step — the decide call happens
exactly once and the run terminates with a success dictionary, contradicting
the claim that every execution exception triggers a retry of the decide
step and, after retries, a failure result. -/
theorem act_scroll_exception_not_retried :
    (act envScrollThrows "go" .pfalse 3).2.errorLogs = 1 ∧
    (act envScrollThrows "go" .pfalse 3).2.decideCalls = 1 ∧
    (act envScrollThrows "go" .pfalse 3).1.success? = true ∧
    ("go", "") ∉ (act envScrollThrows "go" .pfalse 3).2.records := by
  refine ⟨rfl, rfl, rfl, ?_⟩
  decide

/-- C3 amended: exceptions that reach the outer execution handler (here the
element resolution raising on every attempt) make the controller retry the
decide step with chunks-seen preserved, bounded to 2 retries (3 decide
calls, each processing the same empty chunks-seen list); once exhausted the
run terminates with a failure result and records an empty result string in
the actions ledger.  Exceptions in the fill/type branch are retried the
same bounded way, but after the 2 retries execution falls through and
continues without a failure result. -/
theorem act_execution_exception_retry_amended :
    ((act envFindThrows "go" .pfalse 4).1 =
        .ret { success := false, message := "Error performing action: boom",
               action := "go" } ∧
      (act envFindThrows "go" .pfalse 4).2.decideCalls = 3 ∧
      (act envFindThrows "go" .pfalse 4).2.records = [("go", "")] ∧
      (act envFindThrows "go" .pfalse 4).2.ops.countP
        (fun o => decide (o = BrowserOp.domProcess [])) = 3) ∧
    ((act envFillThrows "go" .pfalse 4).2.errorLogs = 3 ∧
      (act envFillThrows "go" .pfalse 4).2.decideCalls = 3 ∧
      (act envFillThrows "go" .pfalse 4).1.success? = true ∧
      ("go", "") ∉ (act envFillThrows "go" .pfalse 4).2.records) := by
  refine ⟨⟨rfl, rfl, rfl, ?_⟩, rfl, rfl, rfl, ?_⟩ <;> decide

/-- C6 counterexample: when a click opens a new tab (original window handle
7, new tab handle 9), the window closed by the controller is the new tab
(`driver.close()` runs while the new tab is the current window), not the
original window, which is switched back to and navigated to the new URL. -/
theorem act_click_closes_new_tab_not_original :
    (act (envNewTab "https://x.example/") "go" .pfalse 3).2.ops.countP
      (fun o => decide (o = BrowserOp.closeWindow 9)) = 1 ∧
    BrowserOp.closeWindow 7 ∉ (act (envNewTab "https://x.example/") "go" .pfalse 3).2.ops ∧
    BrowserOp.navigate "https://x.example/" ∈
      (act (envNewTab "https://x.example/") "go" .pfalse 3).2.ops := by
  refine ⟨?_, ?_, ?_⟩ <;> decide

/-- C6 amended: for every new-tab URL, a click that makes a second window
handle appear is followed, in order, by switching to the new tab, closing
that new tab, switching back to the original window, navigating it to the
new URL, waiting for the DOM to settle (and re-injecting scripts), then a
bounded readiness wait whose timeout is non-fatal: the run continues and
terminates successfully. -/
theorem act_click_new_tab_sequence (url : String) :
    (act (envNewTab url) "go" .pfalse 3).1.success? = true ∧
    ∃ pre post, (act (envNewTab url) "go" .pfalse 3).2.ops =
      pre ++ [BrowserOp.clickElem 3, .switchWindow 9, .closeWindow 9, .switchWindow 7,
        .navigate url, .waitSettled, .injectScripts, .waitReady true] ++ post := by
  refine ⟨rfl, [BrowserOp.injectScripts, .waitSettled, .domProcess []],
    [BrowserOp.injectScripts, .processAllDom], ?_⟩
  rfl

namespace Stagehand

@[simp] theorem addOp_fallbackHits (s : Stats) (o : BrowserOp) :
    (s.addOp o).fallbackHits = s.fallbackHits := rfl

@[simp] theorem addRecord_fallbackHits (s : Stats) (a r : String) :
    (s.addRecord a r).fallbackHits = s.fallbackHits := rfl

@[simp] theorem logErr_fallbackHits (s : Stats) :
    (s.logErr).fallbackHits = s.fallbackHits := rfl

@[simp] theorem incExec_fallbackHits (s : Stats) :
    (s.incExec).fallbackHits = s.fallbackHits := rfl

theorem forceVision_ne_fallback (env : ActEnv) {st : ActState}
    (h : st.useVision ≠ .pfallback) :
    (forceVision env st).useVision ≠ .pfallback := by
  unfold forceVision
  split
  · simp
  · exact h

@[simp] theorem outerCatch_fallbackHits (action : String) (st : ActState) (msg : String)
    (s : Stats) : (outerCatch action st msg s).2.fallbackHits = s.fallbackHits := by
  unfold outerCatch
  dsimp only
  split <;> rfl

theorem outerCatch_recur_useVision {action : String} {st : ActState} {msg : String}
    {s : Stats} {st' : ActState}
    (h : (outerCatch action st msg s).1 = .recur st') : st'.useVision = st.useVision := by
  unfold outerCatch at h
  dsimp only at h
  split at h
  · cases h
    rfl
  · exact StepOut.noConfusion h

@[simp] theorem afterExec_fallbackHits (env : ActEnv) (action : String) (st : ActState)
    (rsp : Response) (t : String) (s : Stats) :
    (afterExec env action st rsp t s).2.fallbackHits = s.fallbackHits := by
  unfold afterExec
  dsimp only
  repeat' split
  all_goals simp [Stats.addOp, Stats.addRecord]

theorem afterExec_recur_useVision {env : ActEnv} {action : String} {st : ActState}
    {rsp : Response} {t : String} {s : Stats} {st' : ActState}
    (h : (afterExec env action st rsp t s).1 = .recur st') : st'.useVision = st.useVision := by
  unfold afterExec at h
  dsimp only at h
  repeat' split at h
  all_goals
    first
      | exact outerCatch_recur_useVision h
      | (cases h; rfl)
      | exact StepOut.noConfusion h

set_option maxHeartbeats 1600000 in
/-- Unless the incoming state already carries the fallback marker, one
`_act` step never takes the vision-fallback branch and never hands the
fallback marker to the next iteration. -/
theorem actStep_no_fallback (env : ActEnv) (action : String) (st : ActState) (s : Stats)
    (h : st.useVision ≠ .pfallback) :
    (actStep env action st s).2.fallbackHits = s.fallbackHits ∧
    ∀ st', (actStep env action st s).1 = .recur st' →
      st'.useVision ≠ PyVision.pfallback := by
  have hf : (forceVision env st).useVision ≠ .pfallback := forceVision_ne_fallback env h
  unfold actStep
  dsimp only
  cases hd : env.decide (forceVision env st) with
  | none =>
    simp only [hd]
    -- the vision-fallback alternative is discharged by `split` itself,
    -- using `hf`
    split
    · refine ⟨rfl, ?_⟩
      rintro st' h'
      cases h'
      exact hf
    · refine ⟨rfl, ?_⟩
      rintro st' h'
      exact StepOut.noConfusion h'
  | some rsp =>
    simp only [hd]
    cases hsel : (env.processDom (forceVision env st).chunksSeen).selectorMap rsp.element with
    | none =>
      simp only [hsel]
      refine ⟨rfl, ?_⟩
      rintro st' h'
      exact StepOut.noConfusion h'
    | some xp =>
      simp only [hsel]
      repeat' split
      all_goals refine ⟨by simp, ?_⟩
      all_goals rintro st' h'
      all_goals
        first
          | (rw [outerCatch_recur_useVision h']; exact hf)
          | (rw [afterExec_recur_useVision h']; exact hf)
          | (cases h'; exact hf)
          | exact StepOut.noConfusion h'

/-- Unless the starting state carries the fallback marker, a whole `_act`
run never takes the vision-fallback branch. -/
theorem actLoop_no_fallback (env : ActEnv) (action : String) :
    ∀ (fuel : Nat) (st : ActState) (s : Stats), st.useVision ≠ .pfallback →
      (actLoop env action fuel st s).2.fallbackHits = s.fallbackHits := by
  intro fuel
  induction fuel with
  | zero => intro st s _; rfl
  | succ n ih =>
    intro st s h
    have hs := actStep_no_fallback env action st s h
    rw [actLoop_succ]
    rcases hstep : actStep env action st s with ⟨out, s2⟩
    rw [hstep] at hs
    cases out with
    | done r => simpa using hs.1
    | recur st' =>
      have h2 := ih st' s2 (hs.2 st' rfl)
      simpa [h2] using hs.1

end Stagehand

namespace Stagehand

/-- Over snapshots with a constant chunk count `N`, the extraction loop run
from fewer than `N` seen chunks with enough fuel terminates, makes at most
one gateway call per remaining chunk, and grows `chunks_seen` by exactly
one chunk per gateway call. -/
theorem extractLoop_bounded (env : ExtractEnv) (N : Nat)
    (hsnap : ∀ s, (env.processDom s).chunks = N) :
    ∀ (fuel : Nat) (progress content : PyVal) (seen : List Nat),
      seen.length < N → N - seen.length ≤ fuel →
      ((extractLoop env fuel progress content seen).result.isSome = true ∧
       (extractLoop env fuel progress content seen).calls ≤ N - seen.length ∧
       (extractLoop env fuel progress content seen).seen.length =
         seen.length + (extractLoop env fuel progress content seen).calls) := by
  intro fuel
  induction fuel with
  | zero =>
    intro p c seen h1 h2
    omega
  | succ n ih =>
    intro p c seen h1 h2
    rw [extractLoop_succ]
    dsimp only
    cases hc : (stepCompleted env seen p c ||
        ((seen ++ [(env.processDom seen).chunk]).length == (env.processDom seen).chunks)) with
    | true =>
      simp only [hc, if_true]
      refine ⟨rfl, by omega, by simp⟩
    | false =>
      rw [if_neg (by simp)]
      have hc2 := hc
      rw [Bool.or_eq_false_iff] at hc2
      have hlen : (seen ++ [(env.processDom seen).chunk]).length = seen.length + 1 := by
        simp
      have hne : seen.length + 1 ≠ N := by
        have hb := hc2.2
        rw [beq_eq_false_iff_ne] at hb
        rw [hlen, hsnap seen] at hb
        exact hb
      have h1' : (seen ++ [(env.processDom seen).chunk]).length < N := by omega
      have h2' : N - (seen ++ [(env.processDom seen).chunk]).length ≤ n := by
        rw [hlen]; omega
      have main : ∀ (P O : PyVal),
          (extractLoop env n P O (seen ++ [(env.processDom seen).chunk])).result.isSome
              = true ∧
          (extractLoop env n P O (seen ++ [(env.processDom seen).chunk])).calls + 1 ≤
              N - seen.length ∧
          (extractLoop env n P O (seen ++ [(env.processDom seen).chunk])).seen.length =
              seen.length +
                ((extractLoop env n P O (seen ++ [(env.processDom seen).chunk])).calls + 1) := by
        intro P O
        have hih := ih P O (seen ++ [(env.processDom seen).chunk]) h1' h2'
        refine ⟨hih.1, ?_, ?_⟩
        · have hx := hih.2.1
          rw [hlen] at hx
          omega
        · have hx := hih.2.2
          rw [hlen] at hx
          omega
      dsimp only
      exact ⟨(main _ _).1, (main _ _).2.1, (main _ _).2.2⟩

end Stagehand

/-- C2: for every extraction environment whose snapshots report a constant
chunk count N of at least 1, the public `extract` (run with fuel N, which
the loop never exhausts) terminates returning an accumulator, issues at
most N `extract` gateway calls, and appends exactly one chunk to
chunks-seen per gateway call; moreover, whenever the gateway step at a
given state reports a truthy completed flag, the loop returns right after
that single call. -/
theorem extract_one_call_per_chunk_terminates (env : ExtractEnv) (N : Nat)
    (progress content : PyVal) (seen : List Nat)
    (hN : 1 ≤ N) (hsnap : ∀ s, (env.processDom s).chunks = N) :
    ((extract env N).result.isSome = true ∧
     (extract env N).calls ≤ N ∧
     (extract env N).seen.length = (extract env N).calls) ∧
    (stepCompleted env seen progress content = true →
      (extractLoop env N progress content seen).calls = 1) := by
  constructor
  · have h := extractLoop_bounded env N hsnap N (.vstr "") .vnone []
      (by simpa using hN) (by simp)
    unfold extract
    refine ⟨h.1, by simpa using h.2.1, by simpa using h.2.2⟩
  · intro hdone
    obtain ⟨k, rfl⟩ : ∃ k, N = k + 1 := ⟨N - 1, by omega⟩
    rw [extractLoop_succ]
    dsimp only
    rw [hdone]
    simp

/-- Witness for the C2 theorem at a concrete 2-chunk extraction
environment. -/
theorem extract_one_call_per_chunk_terminates_witness :
    (1 ≤ 2 ∧ (∀ s, (envExtractTwo.processDom s).chunks = 2)) ∧
    (((extract envExtractTwo 2).result.isSome = true ∧
      (extract envExtractTwo 2).calls ≤ 2 ∧
      (extract envExtractTwo 2).seen.length = (extract envExtractTwo 2).calls) ∧
     (stepCompleted envExtractTwo [] .vnone .vnone = true →
      (extractLoop envExtractTwo 2 .vnone .vnone []).calls = 1)) :=
  ⟨⟨by decide, fun _ => rfl⟩,
    extract_one_call_per_chunk_terminates envExtractTwo 2 .vnone .vnone []
      (by decide) (fun _ => rfl)⟩

namespace Stagehand

/-- One `_act` step under `envMethod m` with an out-of-vocabulary method
name: the decide call is counted, no method is dispatched, and the step
either retries (retries < 2) or returns the invalid-method failure. -/
theorem actStep_envMethod (m : String)
    (h1 : m ≠ "scrollIntoView") (h2 : m ≠ "click") (h3 : m ≠ "fill") (h4 : m ≠ "type")
    (steps : String) (retries : Nat) (s : Stats) :
    actStep (Scenarios.envMethod m) "go" ⟨steps, [], .pfalse, false, retries⟩ s =
      ((if retries < 2 then
          StepOut.recur ⟨steps, [], .pfalse, false, retries + 1⟩
        else
          StepOut.done (.ret ⟨false,
            "Internal error: Chosen method " ++ m ++ " is invalid", "go"⟩)),
        { s with
            decideCalls := s.decideCalls + 1,
            ops := s.ops ++ [.injectScripts, .waitSettled, .domProcess []] }) := by
  simp only [actStep, Scenarios.envMethod, Scenarios.baseEnv, forceVision,
    PyVision.truthy, Stats.addOp, elementTextOf]
  simp [h1, h2, h3, h4, Stats.mk.injEq]
  split <;> simp

end Stagehand

/-- C4: whenever the decide-action result carries a method name outside the
known vocabulary (not click, fill, type or scrollIntoView), the controller
retries the decide step exactly twice — three decide calls happen in total —
never dispatches the method, and on the third invalid occurrence returns
the invalid-method failure dictionary. -/
theorem act_invalid_method_two_retries (m : String)
    (h1 : m ≠ "scrollIntoView") (h2 : m ≠ "click") (h3 : m ≠ "fill") (h4 : m ≠ "type") :
    (act (envMethod m) "go" .pfalse 4).1 =
      .ret { success := false,
             message := "Internal error: Chosen method " ++ m ++ " is invalid",
             action := "go" } ∧
    (act (envMethod m) "go" .pfalse 4).2.decideCalls = 3 ∧
    (act (envMethod m) "go" .pfalse 4).2.methodExecs = 0 := by
  have e0 := Stagehand.actStep_envMethod m h1 h2 h3 h4 "" 0 ⟨0, 0, 0, 0, 0, [], []⟩
  have e1 := Stagehand.actStep_envMethod m h1 h2 h3 h4 "" 1
    ⟨1, 0, 0, 0, 0, [], [.injectScripts, .waitSettled, .domProcess []]⟩
  have e2 := Stagehand.actStep_envMethod m h1 h2 h3 h4 "" 2
    ⟨2, 0, 0, 0, 0, [],
      [.injectScripts, .waitSettled, .domProcess [],
       .injectScripts, .waitSettled, .domProcess []]⟩
  rw [if_pos (by omega)] at e0
  rw [if_pos (by omega)] at e1
  rw [if_neg (by omega)] at e2
  norm_num at e0 e1 e2
  have hact : act (envMethod m) "go" .pfalse 4 =
      (.ret { success := false,
              message := "Internal error: Chosen method " ++ m ++ " is invalid",
              action := "go" },
        ⟨3, 0, 0, 0, 0, [],
          [.injectScripts, .waitSettled, .domProcess [],
           .injectScripts, .waitSettled, .domProcess [],
           .injectScripts, .waitSettled, .domProcess []]⟩) := by
    have start : act (envMethod m) "go" .pfalse 4 =
        actLoop (envMethod m) "go" 4 ⟨"", [], .pfalse, false, 0⟩
          ⟨0, 0, 0, 0, 0, [], []⟩ := rfl
    rw [start]
    rw [show (4 : Nat) = 3 + 1 from rfl, Stagehand.actLoop_succ, e0]
    dsimp only
    rw [show (3 : Nat) = 2 + 1 from rfl, Stagehand.actLoop_succ, e1]
    dsimp only
    rw [show (2 : Nat) = 1 + 1 from rfl, Stagehand.actLoop_succ, e2]
  rw [hact]
  exact ⟨rfl, rfl, rfl⟩

/-- Witness for the C4 theorem at the concrete invalid method name foo. -/
theorem act_invalid_method_two_retries_witness :
    ("foo" ≠ "scrollIntoView" ∧ "foo" ≠ "click" ∧ "foo" ≠ "fill" ∧ "foo" ≠ "type") ∧
    ((act (envMethod "foo") "go" .pfalse 4).1 =
      .ret { success := false,
             message := "Internal error: Chosen method " ++ "foo" ++ " is invalid",
             action := "go" } ∧
    (act (envMethod "foo") "go" .pfalse 4).2.decideCalls = 3 ∧
    (act (envMethod "foo") "go" .pfalse 4).2.methodExecs = 0) :=
  ⟨⟨by decide, by decide, by decide, by decide⟩,
    act_invalid_method_two_retries "foo" (by decide) (by decide) (by decide) (by decide)⟩

/-- C9: the public `act` always hands `_act` a boolean vision flag (the
fallback marker of the public default is coerced to `False` before the
first `_act` call), and consequently, for every environment, action, vision
argument and fuel, the comparison of `use_vision` against the fallback
marker inside `_act` is never true in the whole run. -/
theorem act_use_vision_always_boolean (env : ActEnv) (action : String)
    (uv : PyVision) (fuel : Nat) :
    toBoolVision uv ≠ PyVision.pfallback ∧
    (act env action uv fuel).2.fallbackHits = 0 := by
  have h : toBoolVision uv ≠ PyVision.pfallback := by
    cases uv <;> simp [toBoolVision]
  refine ⟨h, ?_⟩
  unfold act
  exact actLoop_no_fallback env action fuel _ _ h

namespace Stagehand

theorem countP_mapSet {α : Type} (k : String) (v : α) :
    ∀ m : List (String × α),
      (m.map (fun p => if p.1 == k then (k, v) else p)).countP (fun p => p.1 == k) =
        m.countP (fun p => p.1 == k) := by
  intro m
  induction m with
  | nil => rfl
  | cons p t ih =>
    by_cases hp : (p.1 == k) = true
    · rw [List.map_cons, if_pos hp, List.countP_cons, List.countP_cons, ih]
      simp [hp]
    · rw [List.map_cons, if_neg hp, List.countP_cons, List.countP_cons, ih]

theorem find?_mapSet {α : Type} (k : String) (v : α) :
    ∀ m : List (String × α), m.any (fun p => p.1 == k) = true →
      (m.map (fun p => if p.1 == k then (k, v) else p)).find? (fun p => p.1 == k) =
        some (k, v) := by
  intro m
  induction m with
  | nil =>
    intro h
    simp at h
  | cons p t ih =>
    intro h
    by_cases hp : (p.1 == k) = true
    · rw [List.map_cons, if_pos hp]
      exact List.find?_cons_of_pos _ (by simp)
    · have ht : t.any (fun p => p.1 == k) = true := by
        simp only [List.any_cons, hp] at h
        simpa using h
      rw [List.map_cons, if_neg hp, List.find?_cons_of_neg _ (by simp [hp]), ih ht]

theorem find?_appendSingle {α : Type} (k : String) (v : α) :
    ∀ m : List (String × α), m.any (fun p => p.1 == k) = false →
      (m ++ [(k, v)]).find? (fun p => p.1 == k) = some (k, v) := by
  intro m
  induction m with
  | nil =>
    intro _
    rw [List.nil_append]
    exact List.find?_cons_of_pos _ (by simp)
  | cons p t ih =>
    intro h
    simp only [List.any_cons, Bool.or_eq_false_iff] at h
    rw [List.cons_append, List.find?_cons_of_neg _ (by simp [h.1]), ih h.2]

theorem dictSet_countP {α : Type} (m : List (String × α)) (k : String) (v : α)
    (hm : m.countP (fun p => p.1 == k) ≤ 1) :
    (dictSet m k v).countP (fun p => p.1 == k) = 1 := by
  unfold dictSet
  by_cases h : m.any (fun p => p.1 == k) = true
  · rw [if_pos h, countP_mapSet]
    have hpos : 0 < m.countP (fun p => p.1 == k) := by
      rw [List.countP_pos_iff]
      obtain ⟨x, hx, hpx⟩ := List.any_eq_true.mp h
      exact ⟨x, hx, hpx⟩
    omega
  · rw [if_neg h, List.countP_append]
    have h0 : m.countP (fun p => p.1 == k) = 0 := by
      rw [List.countP_eq_zero]
      intro a ha hpa
      exact h (List.any_eq_true.mpr ⟨a, ha, hpa⟩)
    rw [h0]
    simp [List.countP_cons]

theorem dictGet_dictSet {α : Type} (m : List (String × α)) (k : String) (v : α) :
    dictGet (dictSet m k v) k = some v := by
  unfold dictGet dictSet
  by_cases h : m.any (fun p => p.1 == k) = true
  · rw [if_pos h, find?_mapSet k v m h]
    rfl
  · rw [if_neg h, find?_appendSingle k v m (Bool.eq_false_iff.mpr h)]
    rfl

end Stagehand

/-- C7: the Ledger fingerprint of an action text is the same deterministic
hash on every call, and recording the same text twice against a well-formed
ledger (at most one entry per fingerprint, as in a Python dict) leaves
exactly one entry for that fingerprint, holding the second (most recent)
result together with the action text. -/
theorem record_action_fingerprint_idempotent (sha : String → String)
    (m : List (String × String × String)) (a r1 r2 : String)
    (hm : m.countP (fun p => p.1 == sha a) ≤ 1) :
    (record_action sha m a r1).2 = sha a ∧
    (record_action sha (record_action sha m a r1).1 a r2).2 = sha a ∧
    ((record_action sha (record_action sha m a r1).1 a r2).1).countP
      (fun p => p.1 == sha a) = 1 ∧
    dictGet (record_action sha (record_action sha m a r1).1 a r2).1 (sha a) =
      some (r2, a) := by
  have h1 : ((record_action sha m a r1).1).countP (fun p => p.1 == sha a) = 1 :=
    Stagehand.dictSet_countP m (sha a) (r1, a) hm
  refine ⟨rfl, rfl, ?_, ?_⟩
  · exact Stagehand.dictSet_countP _ (sha a) (r2, a) (by omega)
  · exact Stagehand.dictGet_dictSet _ (sha a) (r2, a)

/-- Witness for the C7 theorem: a concrete hash, the empty ledger, and two
writes of the action text go. -/
theorem record_action_fingerprint_idempotent_witness :
    (([] : List (String × String × String)).countP
        (fun p => p.1 == (fun s => s ++ "#") "go") ≤ 1) ∧
    ((record_action (fun s => s ++ "#") [] "go" "r1").2 = (fun s => s ++ "#") "go" ∧
     (record_action (fun s => s ++ "#")
        (record_action (fun s => s ++ "#") [] "go" "r1").1 "go" "r2").2 =
          (fun s => s ++ "#") "go" ∧
     ((record_action (fun s => s ++ "#")
        (record_action (fun s => s ++ "#") [] "go" "r1").1 "go" "r2").1).countP
        (fun p => p.1 == (fun s => s ++ "#") "go") = 1 ∧
     dictGet (record_action (fun s => s ++ "#")
        (record_action (fun s => s ++ "#") [] "go" "r1").1 "go" "r2").1
        ((fun s => s ++ "#") "go") = some ("r2", "go")) :=
  ⟨by decide,
    record_action_fingerprint_idempotent (fun s => s ++ "#") [] "go" "r1" "r2" (by decide)⟩

/-- C8: when the observe gateway returns the NONE sentinel, the resolver
returns the no-match value without raising and without touching the
observations ledger; and whenever a ledger entry is written, the gateway
returned a non-empty, non-sentinel element id that resolved in the selector
map and the live-element lookup did not raise. -/
theorem observe_none_no_ledger (env env2 : ObserveEnv) (sha : String → String)
    (obs obs2 : List (String × String × String)) (o o2 : String)
    (h : env.observeContent = "NONE")
    (h2 : (observe env2 sha obs2 o2).wrote = true) :
    ((observe env sha obs o).ret = .retNone ∧
     (observe env sha obs o).ledger = obs ∧
     (observe env sha obs o).wrote = false) ∧
    (env2.observeContent ≠ "" ∧ env2.observeContent ≠ "NONE" ∧
     (env2.selectorMap env2.observeContent).isSome = true ∧
     env2.findElementFails = false) := by
  constructor
  · unfold observe
    rw [h]
    rw [if_neg (by decide)]
    rw [if_pos rfl]
    exact ⟨rfl, rfl, rfl⟩
  · unfold observe at h2
    by_cases hc1 : env2.observeContent = ""
    · rw [if_pos hc1] at h2
      simp at h2
    · rw [if_neg hc1] at h2
      by_cases hc2 : env2.observeContent = "NONE"
      · rw [if_pos hc2] at h2
        simp at h2
      · rw [if_neg hc2] at h2
        cases hsel : env2.selectorMap env2.observeContent with
        | none =>
          rw [hsel] at h2
          simp at h2
        | some sel =>
          rw [hsel] at h2
          dsimp only at h2
          by_cases hfe : env2.findElementFails = true
          · rw [if_pos hfe] at h2
            simp at h2
          · exact ⟨hc1, hc2, rfl, Bool.eq_false_iff.mpr hfe⟩

/-- Witness for the C8 theorem: a NONE reply next to an observe call that
finds and resolves element 5. -/
theorem observe_none_no_ledger_witness :
    (envObserveNone.observeContent = "NONE" ∧
     (observe envObserveHit (fun s => s ++ "#") [] "find it").wrote = true) ∧
    (((observe envObserveNone (fun s => s ++ "#") [] "find it").ret = .retNone ∧
      (observe envObserveNone (fun s => s ++ "#") [] "find it").ledger = [] ∧
      (observe envObserveNone (fun s => s ++ "#") [] "find it").wrote = false) ∧
     (envObserveHit.observeContent ≠ "" ∧ envObserveHit.observeContent ≠ "NONE" ∧
      (envObserveHit.selectorMap envObserveHit.observeContent).isSome = true ∧
      envObserveHit.findElementFails = false)) :=
  ⟨⟨rfl, by decide⟩,
    observe_none_no_ledger envObserveNone envObserveHit (fun s => s ++ "#") [] []
      "find it" "find it" rfl (by decide)⟩

/-- C5: the decide-action inference call returns null on a first tool call
named skipSection (one model call, nothing logged); and when the model
response carries no tool invocation at all on the first call and on both
retries, it makes exactly 3 model calls (2 additional retries), logs the
no-tool-calls error, and returns null instead of raising. -/
theorem inference_act_skip_and_retry
    (skipResponses emptyResponses : Nat → List Inference.ToolCall)
    (tc : Inference.ToolCall) (rest : List Inference.ToolCall)
    (h0 : skipResponses 0 = tc :: rest) (hname : tc.name = "skipSection")
    (he0 : emptyResponses 0 = []) (he1 : emptyResponses 1 = [])
    (he2 : emptyResponses 2 = []) :
    Inference.act skipResponses 0 = ⟨none, 1, false⟩ ∧
    Inference.act emptyResponses 0 = ⟨none, 3, true⟩ := by
  constructor
  · unfold Inference.act
    rw [h0]
    simp [hname]
  · have E2 : Inference.act emptyResponses 2 = ⟨none, 1, true⟩ := by
      unfold Inference.act
      rw [he2, dif_pos (by omega)]
    have E1 : Inference.act emptyResponses 1 = ⟨none, 2, true⟩ := by
      unfold Inference.act
      rw [he1, dif_neg (by omega)]
      dsimp only
      rw [show (1 + 1 : Nat) = 2 from rfl, E2]
    have E0 : Inference.act emptyResponses 0 = ⟨none, 3, true⟩ := by
      unfold Inference.act
      rw [he0, dif_neg (by omega)]
      dsimp only
      rw [show (0 + 1 : Nat) = 1 from rfl, E1]
    exact E0

/-- Witness for the C5 theorem at concrete oracles. -/
theorem inference_act_skip_and_retry_witness :
    (skipOracle 0 = { name := "skipSection", arguments := "" } :: [] ∧
     ({ name := "skipSection", arguments := "" } : Inference.ToolCall).name =
        "skipSection" ∧
     emptyOracle 0 = [] ∧ emptyOracle 1 = [] ∧ emptyOracle 2 = []) ∧
    (Inference.act skipOracle 0 = ⟨none, 1, false⟩ ∧
     Inference.act emptyOracle 0 = ⟨none, 3, true⟩) :=
  ⟨⟨rfl, rfl, rfl, rfl, rfl⟩,
    inference_act_skip_and_retry skipOracle emptyOracle _ _ rfl rfl rfl rfl rfl⟩

/-- C10: a first tool call that is present, is not the skip tool, and has an
empty arguments payload makes the decide-action inference call fall off the
end of the function: it returns null after exactly one model call, with no
retry and nothing logged — the same outcome as an explicit skip. -/
theorem inference_act_empty_arguments_none
    (responses : Nat → List Inference.ToolCall)
    (tc : Inference.ToolCall) (rest : List Inference.ToolCall)
    (h0 : responses 0 = tc :: rest) (hname : tc.name ≠ "skipSection")
    (hargs : tc.arguments = "") :
    Inference.act responses 0 = ⟨none, 1, false⟩ := by
  unfold Inference.act
  rw [h0]
  simp [hname, hargs]

/-- Witness for the C10 theorem at a concrete oracle. -/
theorem inference_act_empty_arguments_none_witness :
    (emptyArgsOracle 0 = { name := "click", arguments := "" } :: [] ∧
     ({ name := "click", arguments := "" } : Inference.ToolCall).name ≠ "skipSection" ∧
     ({ name := "click", arguments := "" } : Inference.ToolCall).arguments = "") ∧
    Inference.act emptyArgsOracle 0 = ⟨none, 1, false⟩ :=
  ⟨⟨rfl, by decide, rfl⟩,
    inference_act_empty_arguments_none emptyArgsOracle _ _ rfl (by decide) rfl⟩
